import Mathlib

/-!
Shallow embedding of the jalgo live-trader (`LiveTrader` and its helpers).

Prices and monetary amounts are modelled as rationals (`ℚ`), timestamps as
integers (milliseconds), and the parallel OHLCV arrays of the source as a
structure of lists, exactly mirroring `this.candles` in the source.
The WebSocket reconnect logic is modelled as an explicit event-step machine
whose handlers follow the source's `open` / `close` / timer callbacks.
-/

/-- The per-trader configuration fields read by the trade-lifecycle code
(`DEFAULT_CONFIG` merged with overrides). -/
structure Config where
  rewardMultiple : ℚ
  useLeverage : Bool
  leverageAmount : ℚ
  riskPerTrade : ℚ
  initialCapital : ℚ
deriving DecidableEq, Repr

/-- The well-known fields of the external engine's state that the tracker
reads (`this.state` / `prevState`). -/
structure AlgoState where
  inLongTrade : Bool
  inShortTrade : Bool
  longEntryPrice : ℚ
  shortEntryPrice : ℚ
  longStopReference : ℚ
  shortStopReference : ℚ
  longTargetLevel : ℚ
  shortTargetLevel : ℚ
  riskAmount : ℚ
deriving DecidableEq, Repr

/-- An engine signal (`result.signal`); the source compares
`signal.position === 'long' / 'short'` on strings. -/
structure Signal where
  position : String
deriving DecidableEq, Repr

/-- The part of the engine's return value (`jAlgo(...)`) that the
trade-lifecycle code consumes. -/
structure EngineResult where
  state : AlgoState
  signal : Option Signal
deriving DecidableEq, Repr

/-- The parallel OHLCV arrays kept in `this.candles`. -/
structure Candles where
  open_ : List ℚ
  high : List ℚ
  low : List ℚ
  close : List ℚ
  volume : List ℚ
  openTime : List ℤ
  closeTime : List ℤ
deriving DecidableEq, Repr

/-- An active trade record (`this.activeLongTrade` / `this.activeShortTrade`).
The source's `id` is `symbol-epochMillis-counter`; the monotone counter part
is the modelled identifier, and `entryTime` is the candle close time. -/
structure ActiveTrade where
  id : Nat
  entryTime : ℤ
  entryPrice : ℚ
  stopLevel : ℚ
  targetLevel : ℚ
  riskAmount : ℚ
deriving DecidableEq, Repr

/-- Trade events sent to the notification boundary (the `sendSignal` calls),
with exactly the payload fields the source passes. -/
inductive TradeEvent where
  | exit (position : String) (entryPrice exitPrice profitLoss riskedAmount : ℚ)
      (reason : String)
  | entry (position : String) (price stopLevel targetLevel : ℚ)
  | stopUpdate (position : String) (previousStop newStop entryPrice targetLevel : ℚ)
deriving DecidableEq, Repr

/-! ### Connection manager (reconnect/backoff state machine)

The source keeps `isConnected`, `reconnectAttempts`, `maxReconnectAttempts = 10`
and `reconnectDelay = 1000` on the trader and reacts to socket events in
callbacks.  `pendingTimer` models the `setTimeout` scheduled inside
`attemptReconnect` (the source never stores its handle), and `socketOpen`
models whether `this.socket` currently holds a live WebSocket object. -/

structure ConnSt where
  isConnected : Bool
  socketOpen : Bool
  reconnectAttempts : Nat
  reconnectDelay : Nat
  pendingTimer : Bool
deriving DecidableEq, Repr

def maxReconnectAttempts : Nat := 10

/-- Model of `attemptReconnect` from the source: gives up once
`reconnectAttempts >= maxReconnectAttempts`, otherwise increments the counter,
computes `min(30000, reconnectDelay * 2^(reconnectAttempts - 1))` and schedules
a reconnect timer for that delay.  Returns the new state together with the
scheduled delay (`none` when it gave up). -/
def attemptReconnect (s : ConnSt) : ConnSt × Option Nat :=
  if maxReconnectAttempts ≤ s.reconnectAttempts then (s, none)
  else
    let attempts := s.reconnectAttempts + 1
    let delay := min 30000 (s.reconnectDelay * 2 ^ (attempts - 1))
    ({ s with reconnectAttempts := attempts, pendingTimer := true }, some delay)

/-- Externally observable connection events: the socket `open` and `close`
callbacks, the reconnect timer firing, and an explicit `stop()` call. -/
inductive ConnEvent where
  | opened
  | closed
  | timerFired
  | stopCalled
deriving DecidableEq, Repr

/-- One step of the connection machine, following the source's handlers:
* `opened`  — the `'open'` callback: sets `isConnected`, resets
  `reconnectAttempts` to `0` and `reconnectDelay` to `1000`;
* `closed`  — the `'close'` callback: clears `isConnected` then runs
  `attemptReconnect`;
* `timerFired` — the pending reconnect timer runs its callback, which calls
  `connectWebSocket` and so constructs a new WebSocket (a `Connecting`
  transition); with no timer pending nothing happens;
* `stopCalled` — `stop()`: terminates and nulls the socket and clears
  `isConnected`; the source stores no timer handle, so a pending reconnect
  timer is left untouched. -/
def connStep (s : ConnSt) : ConnEvent → ConnSt
  | ConnEvent.opened =>
      { s with isConnected := true, reconnectAttempts := 0, reconnectDelay := 1000 }
  | ConnEvent.closed => (attemptReconnect { s with isConnected := false }).1
  | ConnEvent.timerFired =>
      if s.pendingTimer then { s with pendingTimer := false, socketOpen := true } else s
  | ConnEvent.stopCalled => { s with socketOpen := false, isConnected := false }

/-- Whether handling event `e` in state `s` initiates a new connection
attempt (a `Connecting` transition, i.e. `connectWebSocket` runs and creates
a WebSocket): exactly when a pending reconnect timer fires. -/
def isConnectingStep (s : ConnSt) : ConnEvent → Bool
  | ConnEvent.timerFired => s.pendingTimer
  | _ => false

/-- Run the connection machine over a list of events. -/
def runConn (s : ConnSt) (es : List ConnEvent) : ConnSt :=
  es.foldl connStep s

/-- Returns `true` iff some step along the event list is a connection attempt. -/
def connectsAlong (s : ConnSt) : List ConnEvent → Bool
  | [] => false
  | e :: es => isConnectingStep s e || connectsAlong (connStep s e) es

/-! ### Trade lifecycle (`processCandle`)

`processCandle` is modelled stage by stage following the source's
comment-delimited blocks: long-exit check, short-exit check, new-entry
handling, stop-reference-update checks.  The engine call `jAlgo(...)` is a
parameter; a thrown engine error is the `Except.error` case, caught by the
surrounding `try`/`catch` before `this.state` is reassigned. -/

/-- The factor `this.config.useLeverage ? this.config.leverageAmount : 1`. -/
def leverageFactor (cfg : Config) : ℚ :=
  if cfg.useLeverage then cfg.leverageAmount else 1

/-- The `exitReason` / `profitLoss` computation of the long-exit block:
target hit first, otherwise an opposing short signal yields a partial P&L
(favorable: fraction of the target distance times full reward; adverse:
fraction of the stop distance, negated), otherwise the `"Unknown"` fallback. -/
def longExitReasonPL (cfg : Config) (prev : AlgoState) (sig : Option Signal)
    (currentClose currentHigh : ℚ) : String × ℚ :=
  if prev.longTargetLevel ≤ currentHigh then
    ("Target Hit", prev.riskAmount * cfg.rewardMultiple * leverageFactor cfg)
  else
    match sig with
    | some s =>
        if s.position = "short" then
          let longPL := currentClose - prev.longEntryPrice
          let longRisk := prev.longEntryPrice - prev.longStopReference
          if 0 < longPL then
            let targetDistance := prev.longTargetLevel - prev.longEntryPrice
            let percentageToTarget := min (longPL / targetDistance) 1
            ("New Signal (Short)",
              percentageToTarget * prev.riskAmount * cfg.rewardMultiple * leverageFactor cfg)
          else
            let percentageLoss := min (|longPL| / |longRisk|) 1
            ("New Signal (Short)", -(percentageLoss * prev.riskAmount * leverageFactor cfg))
        else ("Unknown", 0)
    | none => ("Unknown", 0)

/-- The `exitReason` / `profitLoss` computation of the short-exit block. -/
def shortExitReasonPL (cfg : Config) (prev : AlgoState) (sig : Option Signal)
    (currentClose currentLow : ℚ) : String × ℚ :=
  if currentLow ≤ prev.shortTargetLevel then
    ("Target Hit", prev.riskAmount * cfg.rewardMultiple * leverageFactor cfg)
  else
    match sig with
    | some s =>
        if s.position = "long" then
          let shortPL := prev.shortEntryPrice - currentClose
          let shortRisk := prev.shortStopReference - prev.shortEntryPrice
          if 0 < shortPL then
            let targetDistance := prev.shortEntryPrice - prev.shortTargetLevel
            let percentageToTarget := min (shortPL / targetDistance) 1
            ("New Signal (Long)",
              percentageToTarget * prev.riskAmount * cfg.rewardMultiple * leverageFactor cfg)
          else
            let percentageLoss := min (|shortPL| / |shortRisk|) 1
            ("New Signal (Long)", -(percentageLoss * prev.riskAmount * leverageFactor cfg))
        else ("Unknown", 0)
    | none => ("Unknown", 0)

/-- Trader state threaded through `processCandle`. -/
structure TraderSt where
  config : Config
  candles : Candles
  state : AlgoState
  activeLongTrade : Option ActiveTrade
  activeShortTrade : Option ActiveTrade
  tradeIdCounter : Nat
deriving DecidableEq, Repr

/-- Long-exit block: when `prevState.inLongTrade && !this.state.inLongTrade`,
emit the exit event (entry price and risked amount from the prior state, exit
price the current close) and clear `activeLongTrade`. -/
def longExitStep (cfg : Config) (prev new : AlgoState) (sig : Option Signal)
    (currentClose currentHigh : ℚ) (alt : Option ActiveTrade) :
    List TradeEvent × Option ActiveTrade :=
  if prev.inLongTrade && !new.inLongTrade then
    let rp := longExitReasonPL cfg prev sig currentClose currentHigh
    ([TradeEvent.exit "long" prev.longEntryPrice currentClose rp.2 prev.riskAmount rp.1],
      none)
  else ([], alt)

/-- Short-exit block: mirror of `longExitStep`. -/
def shortExitStep (cfg : Config) (prev new : AlgoState) (sig : Option Signal)
    (currentClose currentLow : ℚ) (ast : Option ActiveTrade) :
    List TradeEvent × Option ActiveTrade :=
  if prev.inShortTrade && !new.inShortTrade then
    let rp := shortExitReasonPL cfg prev sig currentClose currentLow
    ([TradeEvent.exit "short" prev.shortEntryPrice currentClose rp.2 prev.riskAmount rp.1],
      none)
  else ([], ast)

/-- New-entry block: a `'long'` / `'short'` signal creates the corresponding
active trade (id from the incremented `tradeIdCounter`, stop/target/risk from
the new state) and emits the entry event.  Returns
(events, activeLongTrade, activeShortTrade, tradeIdCounter). -/
def entryStep (new : AlgoState) (sig : Option Signal) (currentClose : ℚ)
    (currentTime : ℤ) (alt ast : Option ActiveTrade) (counter : Nat) :
    List TradeEvent × Option ActiveTrade × Option ActiveTrade × Nat :=
  match sig with
  | some s =>
      if s.position = "long" then
        ([TradeEvent.entry "long" currentClose new.longStopReference new.longTargetLevel],
          some ⟨counter + 1, currentTime, currentClose, new.longStopReference,
            new.longTargetLevel, new.riskAmount⟩,
          ast, counter + 1)
      else if s.position = "short" then
        ([TradeEvent.entry "short" currentClose new.shortStopReference new.shortTargetLevel],
          alt,
          some ⟨counter + 1, currentTime, currentClose, new.shortStopReference,
            new.shortTargetLevel, new.riskAmount⟩,
          counter + 1)
      else ([], alt, ast, counter)
  | none => ([], alt, ast, counter)

/-- Long stop-update block: only when an active long trade object is present
and the stop reference changed; refreshes the stored `stopLevel`. -/
def longStopUpdateStep (prev new : AlgoState) (alt : Option ActiveTrade) :
    List TradeEvent × Option ActiveTrade :=
  match alt with
  | some trade =>
      if prev.longStopReference = new.longStopReference then ([], some trade)
      else
        ([TradeEvent.stopUpdate "long" prev.longStopReference new.longStopReference
            trade.entryPrice trade.targetLevel],
          some { trade with stopLevel := new.longStopReference })
  | none => ([], none)

/-- Short stop-update block: mirror of `longStopUpdateStep`. -/
def shortStopUpdateStep (prev new : AlgoState) (ast : Option ActiveTrade) :
    List TradeEvent × Option ActiveTrade :=
  match ast with
  | some trade =>
      if prev.shortStopReference = new.shortStopReference then ([], some trade)
      else
        ([TradeEvent.stopUpdate "short" prev.shortStopReference new.shortStopReference
            trade.entryPrice trade.targetLevel],
          some { trade with stopLevel := new.shortStopReference })
  | none => ([], none)

/-- Model of `processCandle`: run the engine on the frozen window; on a thrown engine
error the `catch` logs and returns with `this.state` still untouched and no
events emitted.  On success, replace the state and run the four lifecycle
blocks in source order (long exit, short exit, entries, stop updates),
reading the current candle from the last elements of the parallel arrays. -/
def processCandle (engine : Candles → AlgoState → Config → Except String EngineResult)
    (t : TraderSt) : TraderSt × List TradeEvent :=
  match engine t.candles t.state t.config with
  | Except.error _ => (t, [])
  | Except.ok result =>
      let prevState := t.state
      let newState := result.state
      let cfg := t.config
      let currentClose := t.candles.close.getLastD 0
      let currentHigh := t.candles.high.getLastD 0
      let currentLow := t.candles.low.getLastD 0
      let currentTime := t.candles.closeTime.getLastD 0
      let le := longExitStep cfg prevState newState result.signal currentClose currentHigh
        t.activeLongTrade
      let se := shortExitStep cfg prevState newState result.signal currentClose currentLow
        t.activeShortTrade
      let en := entryStep newState result.signal currentClose currentTime le.2 se.2
        t.tradeIdCounter
      let lu := longStopUpdateStep prevState newState en.2.1
      let su := shortStopUpdateStep prevState newState en.2.2.1
      let t2 : TraderSt :=
        { t with state := newState, activeLongTrade := lu.2,
                 activeShortTrade := su.2, tradeIdCounter := en.2.2.2 }
      (t2, le.1 ++ se.1 ++ en.1 ++ lu.1 ++ su.1)

/-! ### Stream message handling (`handleMessage`)

A parsed kline payload (`event.k`) carries open time `t`, close time `T`,
OHLCV fields, and the `x` ("is this kline closed") flag.  Non-kline messages
(`!event.k`) are dropped.  `engineCalls` counts how many times the
completed-candle branch reached `processCandle` (one engine invocation each). -/

/-- A kline payload, with the source's single-letter field names. -/
structure Kline where
  t : ℤ
  T : ℤ
  o : ℚ
  h : ℚ
  l : ℚ
  c : ℚ
  v : ℚ
  x : Bool
deriving DecidableEq, Repr

/-- A parsed stream message: either a kline event or anything else. -/
inductive StreamMsg where
  | kline (k : Kline)
  | noKline
deriving DecidableEq, Repr

/-- State touched by `handleMessage`. -/
structure StreamSt where
  lastCandleTime : ℤ
  candles : Candles
  engineCalls : Nat
deriving DecidableEq, Repr

/-- Push the kline onto each of the seven parallel arrays, then `shift()` the
oldest element off each of them. -/
def pushShift (c : Candles) (k : Kline) : Candles :=
  { open_ := (c.open_ ++ [k.o]).tail
    high := (c.high ++ [k.h]).tail
    low := (c.low ++ [k.l]).tail
    close := (c.close ++ [k.c]).tail
    volume := (c.volume ++ [k.v]).tail
    openTime := (c.openTime ++ [k.t]).tail
    closeTime := (c.closeTime ++ [k.T]).tail }

/-- Model of `handleMessage` from the source, in source order: drop non-kline events;
return early when `this.lastCandleTime === kline.t`; otherwise record
`this.lastCandleTime = kline.t`, and only then, if `kline.x` is true, update
the candle arrays (push + shift) and run `processCandle` (counted in
`engineCalls`). -/
def handleMessage (s : StreamSt) : StreamMsg → StreamSt
  | StreamMsg.noKline => s
  | StreamMsg.kline k =>
      if s.lastCandleTime = k.t then s
      else
        let s1 := { s with lastCandleTime := k.t }
        if k.x then
          { s1 with candles := pushShift s1.candles k, engineCalls := s1.engineCalls + 1 }
        else s1

/-- Run `handleMessage` over a list of incoming stream messages. -/
def runStream (s : StreamSt) (ms : List StreamMsg) : StreamSt :=
  ms.foldl handleMessage s


/-! ## Claim theorems: connection manager -/

/-- Claim C4: for reconnect attempts `k = 1..10` with base delay 1000 ms the
computed backoff delay is exactly `min(30000, 1000 * 2^(k-1))`, i.e. the
sequence 1000, 2000, 4000, 8000, 16000, 30000, 30000, 30000, 30000, 30000 ms,
and a successful `Connected` transition (`opened`) resets the attempt counter
and base delay to their initial values. -/
theorem c4_backoff_sequence_and_reset :
    ((List.range 10).map (fun i =>
        (attemptReconnect ⟨false, false, i, 1000, false⟩).2)
      = [some 1000, some 2000, some 4000, some 8000, some 16000,
         some 30000, some 30000, some 30000, some 30000, some 30000])
    ∧ (∀ k : Nat, 1 ≤ k → k ≤ 10 →
        (attemptReconnect ⟨false, false, k - 1, 1000, false⟩).2
          = some (min 30000 (1000 * 2 ^ (k - 1))))
    ∧ (∀ s : ConnSt, (connStep s ConnEvent.opened).reconnectAttempts = 0
        ∧ (connStep s ConnEvent.opened).reconnectDelay = 1000) := by
  refine ⟨by decide, ?_, fun s => ⟨rfl, rfl⟩⟩
  intro k h1 h10
  have hlt : ¬ maxReconnectAttempts ≤ k - 1 := by
    simp only [maxReconnectAttempts]; omega
  simp only [attemptReconnect, if_neg hlt]
  have : k - 1 + 1 - 1 = k - 1 := by omega
  rw [this]

/-- Claim C4 witness at attempt k = 6 (first capped delay). -/
theorem c4_backoff_witness :
    (1 ≤ 6 ∧ (6 : Nat) ≤ 10)
    ∧ (attemptReconnect ⟨false, false, 6 - 1, 1000, false⟩).2
        = some (min 30000 (1000 * 2 ^ (6 - 1))) :=
  ⟨⟨by decide, by decide⟩, c4_backoff_sequence_and_reset.2.1 6 (by decide) (by decide)⟩

/-- Claim C5: once the reconnect attempt count has reached the maximum of 10,
a further close makes `attemptReconnect` give up (no timer scheduled, state
unchanged: the `Terminated` situation), and from any such state with no timer
pending, no later event — socket closes, stray timer events, `stop()` calls —
ever performs another connection attempt (`Terminated` is absorbing).  The
`opened` event is excluded since the socket only emits it as the result of a
connection attempt. -/
theorem c5_terminated_absorbing (s : ConnSt) (es : List ConnEvent)
    (hA : maxReconnectAttempts ≤ s.reconnectAttempts)
    (hT : s.pendingTimer = false)
    (hO : ∀ e ∈ es, e ≠ ConnEvent.opened) :
    attemptReconnect s = (s, none) ∧ connectsAlong s es = false := by
  refine ⟨by simp [attemptReconnect, hA], ?_⟩
  induction es generalizing s with
  | nil => rfl
  | cons e rest ih =>
    have he : e ≠ ConnEvent.opened := hO e (List.mem_cons_self e rest)
    have hO2 : ∀ x ∈ rest, x ≠ ConnEvent.opened :=
      fun x hx => hO x (List.mem_cons_of_mem e hx)
    cases e with
    | opened => exact absurd rfl he
    | closed =>
        have hstep : connStep s ConnEvent.closed = { s with isConnected := false } := by
          simp [connStep, attemptReconnect, hA]
        simp only [connectsAlong, isConnectingStep, hstep, Bool.false_or]
        exact ih _ hA hT hO2
    | timerFired =>
        have hstep : connStep s ConnEvent.timerFired = s := by
          simp [connStep, hT]
        simp only [connectsAlong, isConnectingStep, hT, hstep, Bool.false_or]
        exact ih s hA hT hO2
    | stopCalled =>
        simp only [connectsAlong, isConnectingStep, connStep, Bool.false_or]
        exact ih _ hA hT hO2

/-- Claim C5 witness: a trader that has used all 10 attempts schedules
nothing further across a concrete burst of later events. -/
theorem c5_terminated_absorbing_witness :
    (maxReconnectAttempts ≤ (10 : Nat) ∧ (false : Bool) = false
      ∧ ∀ e ∈ [ConnEvent.closed, ConnEvent.timerFired, ConnEvent.stopCalled,
          ConnEvent.closed], e ≠ ConnEvent.opened)
    ∧ attemptReconnect ⟨false, false, 10, 1000, false⟩
        = (⟨false, false, 10, 1000, false⟩, none)
    ∧ connectsAlong ⟨false, false, 10, 1000, false⟩
        [ConnEvent.closed, ConnEvent.timerFired, ConnEvent.stopCalled,
          ConnEvent.closed] = false :=
  ⟨⟨by decide, rfl, by decide⟩,
    c5_terminated_absorbing ⟨false, false, 10, 1000, false⟩
      [ConnEvent.closed, ConnEvent.timerFired, ConnEvent.stopCalled, ConnEvent.closed]
      (by decide) rfl (by decide)⟩

/-- A freshly connected trader: connected, open socket, no attempts used,
base delay, no timer pending. -/
def connDemoStart : ConnSt := ⟨true, true, 0, 1000, false⟩

/-- Claim C3 counterexample: from a connected trader, a socket close schedules
a reconnect timer; calling `stop()` during that backoff wait leaves the timer
pending (the source stores no timer handle and `stop()` clears no timer), and
when the timer fires a new connection attempt (`Connecting` transition) does
occur — contradicting the claim that after `stop()` no further `Connecting`
transition ever happens and the pending timer is cancelled. -/
theorem c3_stop_then_reconnect_counterexample :
    (runConn connDemoStart [ConnEvent.closed, ConnEvent.stopCalled]).pendingTimer = true
    ∧ connectsAlong (runConn connDemoStart [ConnEvent.closed, ConnEvent.stopCalled])
        [ConnEvent.timerFired] = true := by
  decide

/-- Claim C3 (amended): `stop()` immediately terminates and nulls the socket
and clears the connected flag, but it does not cancel a pending reconnect
timer; whenever a reconnect timer is pending when `stop()` is called, the
timer's later firing still initiates a connection attempt (`Connecting`
transition). -/
theorem c3_stop_behavior_amended (s : ConnSt) :
    connStep s ConnEvent.stopCalled
        = { s with socketOpen := false, isConnected := false }
    ∧ (s.pendingTimer = true →
        isConnectingStep (connStep s ConnEvent.stopCalled) ConnEvent.timerFired = true) :=
  ⟨rfl, fun h => h⟩

/-- Claim C3 witness: concrete state mid-backoff-wait (timer pending), on
which `stop()` leaves the timer pending and the subsequent timer fire is a
connection attempt. -/
theorem c3_stop_behavior_witness :
    (ConnSt.pendingTimer ⟨false, true, 1, 1000, true⟩ = true)
    ∧ connStep ⟨false, true, 1, 1000, true⟩ ConnEvent.stopCalled
        = { isConnected := false, socketOpen := false, reconnectAttempts := 1,
            reconnectDelay := 1000, pendingTimer := true }
    ∧ isConnectingStep (connStep ⟨false, true, 1, 1000, true⟩ ConnEvent.stopCalled)
        ConnEvent.timerFired = true :=
  ⟨rfl, (c3_stop_behavior_amended ⟨false, true, 1, 1000, true⟩).1,
    (c3_stop_behavior_amended ⟨false, true, 1, 1000, true⟩).2 rfl⟩

/-! ## Claim theorems: stream handling and candle window -/

/-- A small concrete window with openTimes 1, 2, 3. -/
def demoCandles : Candles :=
  ⟨[10, 11, 12], [10, 11, 12], [10, 11, 12], [10, 11, 12], [1, 1, 1],
    [1, 2, 3], [1, 2, 3]⟩

/-- A stream state over `demoCandles` before any tick was seen. -/
def streamStart : StreamSt := ⟨0, demoCandles, 0⟩

/-- An in-progress (not closed) tick of the candle with openTime 4. -/
def tickOpen4 : StreamMsg := StreamMsg.kline ⟨4, 5, 13, 13, 13, 13, 1, false⟩

/-- The close of the candle with openTime 4. -/
def tickClosed4 : StreamMsg := StreamMsg.kline ⟨4, 5, 13, 13, 13, 13, 1, true⟩

/-- Claim C1 (code divergence): a tick whose `closed` flag is false is not
ignored — it overwrites `lastCandleTime` — and as a consequence the completed
candle that follows with the same openTime is dropped by the duplicate check:
the window is never updated and the signal engine is never invoked for that
completed candle.  Had the in-progress tick truly been ignored, the completed
candle alone would have produced exactly one engine invocation (last
conjunct). -/
theorem c1_nonclosed_tick_divergence :
    handleMessage streamStart tickOpen4 ≠ streamStart
    ∧ (runStream streamStart [tickOpen4, tickClosed4]).engineCalls = 0
    ∧ (runStream streamStart [tickOpen4, tickClosed4]).candles = demoCandles
    ∧ (handleMessage streamStart tickClosed4).engineCalls = 1 := by
  decide

/-- Claim C2 counterexample: the duplicate check compares only against the
openTime of the immediately preceding tick (`lastCandleTime`), not against the
stored window.  With openTimes 1, 2, 3 stored and the last tick seen at time
3, a (replayed) completed candle with the already-seen openTime 2 is accepted
and stored: the resulting openTime column is `[2, 3, 2]` — a duplicate entry,
not strictly increasing, and the re-append was not a no-op. -/
theorem c2_duplicate_openTime_counterexample :
    (handleMessage ⟨3, demoCandles, 0⟩
        (StreamMsg.kline ⟨2, 3, 9, 9, 9, 9, 1, true⟩)).candles.openTime = [2, 3, 2]
    ∧ ¬ (handleMessage ⟨3, demoCandles, 0⟩
        (StreamMsg.kline ⟨2, 3, 9, 9, 9, 9, 1, true⟩)).candles.openTime.Nodup
    ∧ ¬ List.Pairwise (· < ·)
        (handleMessage ⟨3, demoCandles, 0⟩
          (StreamMsg.kline ⟨2, 3, 9, 9, 9, 9, 1, true⟩)).candles.openTime := by
  decide

/-- Claim C2 (amended): every message handled preserves the window length
exactly (the accept path pushes one candle and unconditionally evicts the
oldest), so `length ≤ N` is preserved; duplicate suppression only rejects a
tick whose openTime equals the previously seen tick's openTime; and when the
incoming kline's openTime is strictly greater than every stored openTime — as
in the time-ordered live stream — strict increase and no-duplicates of the
stored openTimes are preserved as well. -/
theorem c2_window_invariant_preservation (s : StreamSt) (k : Kline) (N : Nat)
    (hlen : s.candles.openTime.length ≤ N)
    (hinc : List.Pairwise (· < ·) s.candles.openTime)
    (hfresh : ∀ y ∈ s.candles.openTime, y < k.t) :
    (∀ m : StreamMsg,
      ((handleMessage s m).candles.openTime).length = s.candles.openTime.length)
    ∧ ((handleMessage s (StreamMsg.kline k)).candles.openTime).length ≤ N
    ∧ List.Pairwise (· < ·) (handleMessage s (StreamMsg.kline k)).candles.openTime
    ∧ (handleMessage s (StreamMsg.kline k)).candles.openTime.Nodup := by
  have hlen1 : ∀ m : StreamMsg,
      ((handleMessage s m).candles.openTime).length = s.candles.openTime.length := by
    intro m
    cases m with
    | noKline => rfl
    | kline k2 =>
        simp only [handleMessage]
        split
        · rfl
        · split
          · simp [pushShift]
          · rfl
  have hpair : List.Pairwise (· < ·)
      (handleMessage s (StreamMsg.kline k)).candles.openTime := by
    simp only [handleMessage]
    split
    · exact hinc
    · split
      · have happ : List.Pairwise (· < ·) (s.candles.openTime ++ [k.t]) := by
          rw [List.pairwise_append]
          exact ⟨hinc, List.pairwise_singleton _ _,
            fun a ha b hb => by
              rw [List.mem_singleton] at hb
              exact hb ▸ hfresh a ha⟩
        exact happ.sublist (List.tail_sublist _)
      · exact hinc
  refine ⟨hlen1, ?_, hpair, hpair.imp fun h => ne_of_lt h⟩
  rw [hlen1 (StreamMsg.kline k)]
  exact hlen

/-- Claim C2 witness: the preserved invariant evaluated on the concrete
window with openTimes 1, 2, 3 receiving the fresh completed candle with
openTime 4, with capacity N = 3. -/
theorem c2_window_invariant_witness :
    ((StreamSt.candles ⟨3, demoCandles, 0⟩).openTime.length ≤ 3
      ∧ List.Pairwise (· < ·) (StreamSt.candles ⟨3, demoCandles, 0⟩).openTime
      ∧ ∀ y ∈ (StreamSt.candles ⟨3, demoCandles, 0⟩).openTime,
          y < Kline.t ⟨4, 5, 13, 13, 13, 13, 1, true⟩)
    ∧ ((handleMessage ⟨3, demoCandles, 0⟩
          (StreamMsg.kline ⟨4, 5, 13, 13, 13, 13, 1, true⟩)).candles.openTime).length ≤ 3
    ∧ List.Pairwise (· < ·) (handleMessage ⟨3, demoCandles, 0⟩
          (StreamMsg.kline ⟨4, 5, 13, 13, 13, 13, 1, true⟩)).candles.openTime
    ∧ (handleMessage ⟨3, demoCandles, 0⟩
          (StreamMsg.kline ⟨4, 5, 13, 13, 13, 13, 1, true⟩)).candles.openTime.Nodup :=
  ⟨⟨by decide, by decide, by decide⟩,
    (c2_window_invariant_preservation ⟨3, demoCandles, 0⟩
        ⟨4, 5, 13, 13, 13, 13, 1, true⟩ 3 (by decide) (by decide) (by decide)).2.1,
    (c2_window_invariant_preservation ⟨3, demoCandles, 0⟩
        ⟨4, 5, 13, 13, 13, 13, 1, true⟩ 3 (by decide) (by decide) (by decide)).2.2.1,
    (c2_window_invariant_preservation ⟨3, demoCandles, 0⟩
        ⟨4, 5, 13, 13, 13, 13, 1, true⟩ 3 (by decide) (by decide) (by decide)).2.2.2⟩

/-! ## Claim theorems: trade lifecycle -/

/-- Claim C8: a thrown engine error is non-fatal — the candle is skipped, the
trader state (algorithm state, active trades, counter) after the call equals
the state before it, and no trade events are emitted. -/
theorem c8_engine_error_skips_candle
    (engine : Candles → AlgoState → Config → Except String EngineResult)
    (t : TraderSt) (msg : String)
    (herr : engine t.candles t.state t.config = Except.error msg) :
    processCandle engine t = (t, []) := by
  simp [processCandle, herr]

/-- The 1.5 reward multiple, no-leverage configuration of the spec's worked
examples. -/
def demoConfig : Config := ⟨1.5, false, 2, 10, 100⟩

/-- The prior algorithm state of the spec's worked examples: in a long trade
entered at 100 with stop reference 98, target 105, risking 10. -/
def demoPriorState : AlgoState :=
  { inLongTrade := true, inShortTrade := false,
    longEntryPrice := 100, shortEntryPrice := 0,
    longStopReference := 98, shortStopReference := 0,
    longTargetLevel := 105, shortTargetLevel := 0,
    riskAmount := 10 }

/-- Claim C8 witness: a concrete throwing engine leaves a concrete trader
untouched and emits nothing. -/
theorem c8_engine_error_witness :
    ((fun (_ : Candles) (_ : AlgoState) (_ : Config) =>
        (Except.error "engine evaluation failed" : Except String EngineResult))
      demoCandles demoPriorState demoConfig
      = Except.error "engine evaluation failed")
    ∧ processCandle
        (fun _ _ _ => Except.error "engine evaluation failed")
        ⟨demoConfig, demoCandles, demoPriorState, none, none, 0⟩
      = (⟨demoConfig, demoCandles, demoPriorState, none, none, 0⟩, []) :=
  ⟨rfl,
    c8_engine_error_skips_candle (fun _ _ _ => Except.error "engine evaluation failed")
      ⟨demoConfig, demoCandles, demoPriorState, none, none, 0⟩
      "engine evaluation failed" rfl⟩

/-- The long-exit block on a target hit: full reward times leverage factor. -/
theorem longExitStep_target_hit {cfg : Config} {prev new : AlgoState}
    {sig : Option Signal} {cc ch : ℚ} {alt : Option ActiveTrade}
    (h1 : prev.inLongTrade = true) (h2 : new.inLongTrade = false)
    (h3 : prev.longTargetLevel ≤ ch) :
    longExitStep cfg prev new sig cc ch alt
      = ([TradeEvent.exit "long" prev.longEntryPrice cc
            (prev.riskAmount * cfg.rewardMultiple * leverageFactor cfg)
            prev.riskAmount "Target Hit"], none) := by
  simp [longExitStep, longExitReasonPL, h1, h2, h3]

/-- The short-exit block on a target hit: full reward times leverage factor. -/
theorem shortExitStep_target_hit {cfg : Config} {prev new : AlgoState}
    {sig : Option Signal} {cc cl : ℚ} {ast : Option ActiveTrade}
    (h1 : prev.inShortTrade = true) (h2 : new.inShortTrade = false)
    (h3 : cl ≤ prev.shortTargetLevel) :
    shortExitStep cfg prev new sig cc cl ast
      = ([TradeEvent.exit "short" prev.shortEntryPrice cc
            (prev.riskAmount * cfg.rewardMultiple * leverageFactor cfg)
            prev.riskAmount "Target Hit"], none) := by
  simp [shortExitStep, shortExitReasonPL, h1, h2, h3]

/-- Claim C6: when a side transitions from in-trade to not-in-trade and the
current candle reached the prior target level (high for long, low for short),
the emitted exit event has reason `"Target Hit"` and
`profitLoss = riskAmount * rewardMultiple * leverageFactor`. -/
theorem c6_target_hit_payout
    (engine : Candles → AlgoState → Config → Except String EngineResult)
    (t : TraderSt) (result : EngineResult)
    (hres : engine t.candles t.state t.config = Except.ok result) :
    (t.state.inLongTrade = true → result.state.inLongTrade = false →
      t.state.longTargetLevel ≤ t.candles.high.getLastD 0 →
      TradeEvent.exit "long" t.state.longEntryPrice (t.candles.close.getLastD 0)
          (t.state.riskAmount * t.config.rewardMultiple * leverageFactor t.config)
          t.state.riskAmount "Target Hit"
        ∈ (processCandle engine t).2)
    ∧ (t.state.inShortTrade = true → result.state.inShortTrade = false →
      t.candles.low.getLastD 0 ≤ t.state.shortTargetLevel →
      TradeEvent.exit "short" t.state.shortEntryPrice (t.candles.close.getLastD 0)
          (t.state.riskAmount * t.config.rewardMultiple * leverageFactor t.config)
          t.state.riskAmount "Target Hit"
        ∈ (processCandle engine t).2) := by
  constructor
  · intro h1 h2 h3
    simp only [processCandle, hres]
    rw [longExitStep_target_hit h1 h2 h3]
    simp
  · intro h1 h2 h3
    simp only [processCandle, hres]
    rw [shortExitStep_target_hit h1 h2 h3]
    simp

/-- The candle of the C6 worked example: high 106 (reaching the 105 target),
closing at 104. -/
def c6Candles : Candles := ⟨[100], [106], [99], [104], [1], [10], [11]⟩

/-- Engine output for the C6 worked example: leaves the long trade. -/
def c6NewState : AlgoState := { demoPriorState with inLongTrade := false }

/-- Constant engine producing the C6 worked-example output, no signal. -/
def c6Engine : Candles → AlgoState → Config → Except String EngineResult :=
  fun _ _ _ => Except.ok ⟨c6NewState, none⟩

/-- Trader processing the C6 worked example. -/
def c6Trader : TraderSt := ⟨demoConfig, c6Candles, demoPriorState, none, none, 0⟩

/-- Claim C6 witness: with longTargetLevel 105, longEntryPrice 100,
riskAmount 10, rewardMultiple 1.5, no leverage and candle high 106, the exit
event has reason `"Target Hit"` and the profitLoss expression evaluates to
exactly 15. -/
theorem c6_target_hit_witness :
    (AlgoState.inLongTrade demoPriorState = true
      ∧ c6NewState.inLongTrade = false
      ∧ demoPriorState.longTargetLevel ≤ c6Candles.high.getLastD 0)
    ∧ TradeEvent.exit "long" demoPriorState.longEntryPrice (c6Candles.close.getLastD 0)
        (demoPriorState.riskAmount * demoConfig.rewardMultiple * leverageFactor demoConfig)
        demoPriorState.riskAmount "Target Hit"
      ∈ (processCandle c6Engine c6Trader).2
    ∧ demoPriorState.riskAmount * demoConfig.rewardMultiple * leverageFactor demoConfig
        = 15 :=
  ⟨⟨rfl, rfl, by decide⟩,
    (c6_target_hit_payout c6Engine c6Trader ⟨c6NewState, none⟩ rfl).1 rfl rfl (by decide),
    by norm_num [demoPriorState, demoConfig, leverageFactor]⟩

/-- The long-exit block on an opposing short signal with favorably moved
close: partial P&L as the capped fraction of the target distance, with the
source's reason string `"New Signal (Short)"`. -/
theorem longExitStep_opposing_favorable {cfg : Config} {prev new : AlgoState}
    {sig : Option Signal} {cc ch : ℚ} {alt : Option ActiveTrade}
    (h1 : prev.inLongTrade = true) (h2 : new.inLongTrade = false)
    (h3 : ch < prev.longTargetLevel) (hsig : sig = some ⟨"short"⟩)
    (h4 : 0 < cc - prev.longEntryPrice) :
    longExitStep cfg prev new sig cc ch alt
      = ([TradeEvent.exit "long" prev.longEntryPrice cc
            (min ((cc - prev.longEntryPrice)
                / (prev.longTargetLevel - prev.longEntryPrice)) 1
              * prev.riskAmount * cfg.rewardMultiple * leverageFactor cfg)
            prev.riskAmount "New Signal (Short)"], none) := by
  simp [longExitStep, longExitReasonPL, h1, h2, not_le.mpr h3, hsig, h4]

/-- The short-exit block on an opposing long signal with favorably moved
close: partial P&L as the capped fraction of the target distance, with the
source's reason string `"New Signal (Long)"`. -/
theorem shortExitStep_opposing_favorable {cfg : Config} {prev new : AlgoState}
    {sig : Option Signal} {cc cl : ℚ} {ast : Option ActiveTrade}
    (h1 : prev.inShortTrade = true) (h2 : new.inShortTrade = false)
    (h3 : prev.shortTargetLevel < cl) (hsig : sig = some ⟨"long"⟩)
    (h4 : 0 < prev.shortEntryPrice - cc) :
    shortExitStep cfg prev new sig cc cl ast
      = ([TradeEvent.exit "short" prev.shortEntryPrice cc
            (min ((prev.shortEntryPrice - cc)
                / (prev.shortEntryPrice - prev.shortTargetLevel)) 1
              * prev.riskAmount * cfg.rewardMultiple * leverageFactor cfg)
            prev.riskAmount "New Signal (Long)"], none) := by
  simp [shortExitStep, shortExitReasonPL, h1, h2, not_le.mpr h3, hsig, h4]

/-- Engine output for the C7 worked example: long closed, opposing short
signal, short side entered. -/
def c7NewState : AlgoState :=
  { demoPriorState with inLongTrade := false, inShortTrade := true }

/-- The candle of the C7 worked example: high 104 (below the 105 target),
closing at 103. -/
def c7Candles : Candles := ⟨[100], [104], [99], [103], [1], [10], [11]⟩

/-- Constant engine producing the C7 worked-example output with the opposing
short signal. -/
def c7Engine : Candles → AlgoState → Config → Except String EngineResult :=
  fun _ _ _ => Except.ok ⟨c7NewState, some ⟨"short"⟩⟩

/-- Trader processing the C7 worked example. -/
def c7Trader : TraderSt := ⟨demoConfig, c7Candles, demoPriorState, none, none, 0⟩

/-- Claim C7 counterexample: at the claim's own input (longEntryPrice 100,
target 105, riskAmount 10, rewardMultiple 1.5, no leverage, high 104,
opposing short signal, close 103) the emitted events are exactly a long exit
with profitLoss 9 and reason `"New Signal (Short)"` followed by the short
entry — no event carries the claimed reason string `"Opposing Signal"`. -/
theorem c7_opposing_reason_counterexample :
    (processCandle c7Engine c7Trader).2
      = [TradeEvent.exit "long" 100 103 9 10 "New Signal (Short)",
          TradeEvent.entry "short" 103 0 0]
    ∧ TradeEvent.exit "long" 100 103 9 10 "Opposing Signal"
        ∉ (processCandle c7Engine c7Trader).2 := by
  have hlist : (processCandle c7Engine c7Trader).2
      = [TradeEvent.exit "long" 100 103 9 10 "New Signal (Short)",
          TradeEvent.entry "short" 103 0 0] := by
    simp only [processCandle, c7Engine, c7Trader]
    rw [longExitStep_opposing_favorable rfl rfl (by norm_num [demoPriorState, c7Candles])
      rfl (by norm_num [demoPriorState, c7Candles])]
    simp [shortExitStep, entryStep, longStopUpdateStep, shortStopUpdateStep,
      demoPriorState, c7NewState, c7Candles, demoConfig, leverageFactor]
    norm_num [demoPriorState, c7Candles, demoConfig, leverageFactor]
  refine ⟨hlist, ?_⟩
  rw [hlist]
  simp

/-- Claim C7 (amended): when a side exits without hitting its target and the
new signal is on the opposite side, the exit event carries the source's
reason string — `"New Signal (Short)"` for a long exit, `"New Signal (Long)"`
for a short exit (not `"Opposing Signal"`) — and, when the close moved
favorably, the partial
`profitLoss = min(favorable distance / target distance, 1) * riskAmount *
rewardMultiple * leverageFactor`. -/
theorem c7_opposing_signal_partial_pl
    (engine : Candles → AlgoState → Config → Except String EngineResult)
    (t : TraderSt) (result : EngineResult)
    (hres : engine t.candles t.state t.config = Except.ok result) :
    (t.state.inLongTrade = true → result.state.inLongTrade = false →
      t.candles.high.getLastD 0 < t.state.longTargetLevel →
      result.signal = some ⟨"short"⟩ →
      0 < t.candles.close.getLastD 0 - t.state.longEntryPrice →
      TradeEvent.exit "long" t.state.longEntryPrice (t.candles.close.getLastD 0)
          (min ((t.candles.close.getLastD 0 - t.state.longEntryPrice)
              / (t.state.longTargetLevel - t.state.longEntryPrice)) 1
            * t.state.riskAmount * t.config.rewardMultiple * leverageFactor t.config)
          t.state.riskAmount "New Signal (Short)"
        ∈ (processCandle engine t).2)
    ∧ (t.state.inShortTrade = true → result.state.inShortTrade = false →
      t.state.shortTargetLevel < t.candles.low.getLastD 0 →
      result.signal = some ⟨"long"⟩ →
      0 < t.state.shortEntryPrice - t.candles.close.getLastD 0 →
      TradeEvent.exit "short" t.state.shortEntryPrice (t.candles.close.getLastD 0)
          (min ((t.state.shortEntryPrice - t.candles.close.getLastD 0)
              / (t.state.shortEntryPrice - t.state.shortTargetLevel)) 1
            * t.state.riskAmount * t.config.rewardMultiple * leverageFactor t.config)
          t.state.riskAmount "New Signal (Long)"
        ∈ (processCandle engine t).2) := by
  constructor
  · intro h1 h2 h3 hsig h4
    simp only [processCandle, hres]
    rw [longExitStep_opposing_favorable h1 h2 h3 hsig h4]
    simp
  · intro h1 h2 h3 hsig h4
    simp only [processCandle, hres]
    rw [shortExitStep_opposing_favorable h1 h2 h3 hsig h4]
    simp

/-- Claim C7 witness: the amended statement applied to the worked example;
the partial-P&L expression evaluates to exactly 9. -/
theorem c7_opposing_signal_witness :
    (AlgoState.inLongTrade demoPriorState = true
      ∧ c7NewState.inLongTrade = false
      ∧ c7Candles.high.getLastD 0 < demoPriorState.longTargetLevel
      ∧ (0 : ℚ) < c7Candles.close.getLastD 0 - demoPriorState.longEntryPrice)
    ∧ TradeEvent.exit "long" demoPriorState.longEntryPrice (c7Candles.close.getLastD 0)
        (min ((c7Candles.close.getLastD 0 - demoPriorState.longEntryPrice)
            / (demoPriorState.longTargetLevel - demoPriorState.longEntryPrice)) 1
          * demoPriorState.riskAmount * demoConfig.rewardMultiple
          * leverageFactor demoConfig)
        demoPriorState.riskAmount "New Signal (Short)"
      ∈ (processCandle c7Engine c7Trader).2
    ∧ min ((c7Candles.close.getLastD 0 - demoPriorState.longEntryPrice)
          / (demoPriorState.longTargetLevel - demoPriorState.longEntryPrice)) 1
        * demoPriorState.riskAmount * demoConfig.rewardMultiple
        * leverageFactor demoConfig = 9 :=
  ⟨⟨rfl, rfl, by norm_num [demoPriorState, c7Candles],
      by norm_num [demoPriorState, c7Candles]⟩,
    (c7_opposing_signal_partial_pl c7Engine c7Trader ⟨c7NewState, some ⟨"short"⟩⟩ rfl).1
      rfl rfl (by norm_num [c7Trader, demoPriorState, c7Candles]) rfl
      (by norm_num [c7Trader, demoPriorState, c7Candles]),
    by norm_num [demoPriorState, c7Candles, demoConfig, leverageFactor]⟩

/-- Whether a trade event is a stop-update for side `p`. -/
def isStopUpdateFor (p : String) : TradeEvent → Bool
  | TradeEvent.stopUpdate pos _ _ _ _ => pos = p
  | _ => false

/-- The exit blocks emit no stop-update events. -/
theorem longExitStep_no_stopUpdate (p : String) (cfg : Config) (prev new : AlgoState)
    (sig : Option Signal) (cc ch : ℚ) (alt : Option ActiveTrade) :
    ((longExitStep cfg prev new sig cc ch alt).1).any (isStopUpdateFor p) = false := by
  unfold longExitStep
  split <;> simp [isStopUpdateFor]

/-- The exit blocks emit no stop-update events. -/
theorem shortExitStep_no_stopUpdate (p : String) (cfg : Config) (prev new : AlgoState)
    (sig : Option Signal) (cc cl : ℚ) (ast : Option ActiveTrade) :
    ((shortExitStep cfg prev new sig cc cl ast).1).any (isStopUpdateFor p) = false := by
  unfold shortExitStep
  split <;> simp [isStopUpdateFor]

/-- The entry block emits no stop-update events. -/
theorem entryStep_no_stopUpdate (p : String) (new : AlgoState) (sig : Option Signal)
    (cc : ℚ) (ct : ℤ) (alt ast : Option ActiveTrade) (counter : Nat) :
    ((entryStep new sig cc ct alt ast counter).1).any (isStopUpdateFor p) = false := by
  unfold entryStep
  cases sig with
  | none => rfl
  | some s =>
      by_cases h1 : s.position = "long"
      · simp [h1, isStopUpdateFor]
      · by_cases h2 : s.position = "short"
        · simp [h1, h2, isStopUpdateFor]
        · simp [h1, h2]

/-- The short stop-update block emits no long stop-update events. -/
theorem shortStopUpdateStep_no_long (prev new : AlgoState) (ast : Option ActiveTrade) :
    ((shortStopUpdateStep prev new ast).1).any (isStopUpdateFor "long") = false := by
  unfold shortStopUpdateStep
  cases ast with
  | none => rfl
  | some trade =>
      by_cases h : prev.shortStopReference = new.shortStopReference
      · simp [h]
      · simp [h, isStopUpdateFor]

/-- The long stop-update block emits no short stop-update events. -/
theorem longStopUpdateStep_no_short (prev new : AlgoState) (alt : Option ActiveTrade) :
    ((longStopUpdateStep prev new alt).1).any (isStopUpdateFor "short") = false := by
  unfold longStopUpdateStep
  cases alt with
  | none => rfl
  | some trade =>
      by_cases h : prev.longStopReference = new.longStopReference
      · simp [h]
      · simp [h, isStopUpdateFor]

/-- An exit block started without an active trade leaves none. -/
theorem longExitStep_trade_of_none (cfg : Config) (prev new : AlgoState)
    (sig : Option Signal) (cc ch : ℚ) :
    (longExitStep cfg prev new sig cc ch none).2 = none := by
  unfold longExitStep
  split <;> rfl

/-- An exit block started without an active trade leaves none. -/
theorem shortExitStep_trade_of_none (cfg : Config) (prev new : AlgoState)
    (sig : Option Signal) (cc cl : ℚ) :
    (shortExitStep cfg prev new sig cc cl none).2 = none := by
  unfold shortExitStep
  split <;> rfl

/-- Without a long signal, the entry block passes the long trade through. -/
theorem entryStep_long_passthrough (new : AlgoState) (sig : Option Signal)
    (cc : ℚ) (ct : ℤ) (alt ast : Option ActiveTrade) (counter : Nat)
    (hsig : ∀ sg : Signal, sig = some sg → sg.position ≠ "long") :
    (entryStep new sig cc ct alt ast counter).2.1 = alt := by
  unfold entryStep
  cases sig with
  | none => rfl
  | some s =>
      have h1 : ¬ s.position = "long" := hsig s rfl
      by_cases h2 : s.position = "short"
      · simp [h1, h2]
      · simp [h1, h2]

/-- Without a short signal, the entry block passes the short trade through. -/
theorem entryStep_short_passthrough (new : AlgoState) (sig : Option Signal)
    (cc : ℚ) (ct : ℤ) (alt ast : Option ActiveTrade) (counter : Nat)
    (hsig : ∀ sg : Signal, sig = some sg → sg.position ≠ "short") :
    (entryStep new sig cc ct alt ast counter).2.2.1 = ast := by
  unfold entryStep
  cases sig with
  | none => rfl
  | some s =>
      have h2 : ¬ s.position = "short" := hsig s rfl
      by_cases h1 : s.position = "long"
      · simp [h1, h2]
      · simp [h1, h2]

/-- Engine output for the C9 counterexample: a fresh long signal with a long
stop reference that differs from the prior state's. -/
def c9NewState : AlgoState :=
  { demoPriorState with inLongTrade := true, longStopReference := 99 }

/-- Constant engine producing the C9 counterexample output. -/
def c9Engine : Candles → AlgoState → Config → Except String EngineResult :=
  fun _ _ _ => Except.ok ⟨c9NewState, some ⟨"long"⟩⟩

/-- Trader for the C9 counterexample: no active trade on either side, not in
any trade. -/
def c9Trader : TraderSt :=
  ⟨demoConfig, c7Candles, { demoPriorState with inLongTrade := false }, none, none, 0⟩

/-- Claim C9 counterexample: the long side has no existing `ActiveTrade`
(`activeLongTrade = none` when the candle arrives), the long stop-reference
field differs between prior (98) and new (99) state, and yet a long
`StopUpdate` event is emitted — because the long entry signal processed
earlier in the same candle creates the `ActiveTrade` that the stop-update
check then sees. -/
theorem c9_entry_stop_update_counterexample :
    TraderSt.activeLongTrade c9Trader = none
    ∧ (processCandle c9Engine c9Trader).2
        = [TradeEvent.entry "long" 103 99 105,
            TradeEvent.stopUpdate "long" 98 99 103 105]
    ∧ (processCandle c9Engine c9Trader).2.any (isStopUpdateFor "long") = true := by
  refine ⟨rfl, ?_, ?_⟩ <;>
    norm_num [processCandle, c9Engine, c9Trader, longExitStep, shortExitStep,
      entryStep, longStopUpdateStep, shortStopUpdateStep, demoPriorState,
      c9NewState, c7Candles, isStopUpdateFor]

/-- Claim C9 (amended): if a side has no `ActiveTrade` when the candle's
processing starts and the engine does not produce an entry signal for that
side in the same candle, then no `StopUpdate` event is emitted for that side,
even when the side's stop-reference field differs between the prior and new
algorithm states; an entry signal in the same candle, however, creates the
`ActiveTrade` on the spot and the stop-update check may then fire for it. -/
theorem c9_no_stop_update_without_trade
    (engine : Candles → AlgoState → Config → Except String EngineResult)
    (t : TraderSt) (result : EngineResult)
    (hres : engine t.candles t.state t.config = Except.ok result) :
    (t.activeLongTrade = none →
      (∀ sg : Signal, result.signal = some sg → sg.position ≠ "long") →
      ((processCandle engine t).2.any (isStopUpdateFor "long")) = false)
    ∧ (t.activeShortTrade = none →
      (∀ sg : Signal, result.signal = some sg → sg.position ≠ "short") →
      ((processCandle engine t).2.any (isStopUpdateFor "short")) = false) := by
  constructor
  · intro halt hsig
    simp only [processCandle, hres, halt, List.any_append, Bool.or_eq_false_iff]
    refine ⟨⟨⟨⟨longExitStep_no_stopUpdate _ _ _ _ _ _ _ _,
      shortExitStep_no_stopUpdate _ _ _ _ _ _ _ _⟩,
      entryStep_no_stopUpdate _ _ _ _ _ _ _ _⟩, ?_⟩,
      shortStopUpdateStep_no_long _ _ _⟩
    rw [longExitStep_trade_of_none, entryStep_long_passthrough _ _ _ _ _ _ _ hsig]
    rfl
  · intro hast hsig
    simp only [processCandle, hres, hast, List.any_append, Bool.or_eq_false_iff]
    refine ⟨⟨⟨⟨longExitStep_no_stopUpdate _ _ _ _ _ _ _ _,
      shortExitStep_no_stopUpdate _ _ _ _ _ _ _ _⟩,
      entryStep_no_stopUpdate _ _ _ _ _ _ _ _⟩,
      longStopUpdateStep_no_short _ _ _⟩, ?_⟩
    rw [shortExitStep_trade_of_none, entryStep_short_passthrough _ _ _ _ _ _ _ hsig]
    rfl

/-- Engine output for the C9 witness: long stop reference changes (98 → 99)
but no signal at all is produced. -/
def c9wNewState : AlgoState := { demoPriorState with longStopReference := 99 }

/-- Constant engine producing the C9 witness output. -/
def c9wEngine : Candles → AlgoState → Config → Except String EngineResult :=
  fun _ _ _ => Except.ok ⟨c9wNewState, none⟩

/-- Claim C9 witness: with no active long trade, no long entry signal, and a
long stop reference that changes 98 → 99, no long stop-update is emitted. -/
theorem c9_no_stop_update_witness :
    (TraderSt.activeLongTrade ⟨demoConfig, c7Candles, demoPriorState, none, none, 0⟩ = none
      ∧ AlgoState.longStopReference demoPriorState ≠ c9wNewState.longStopReference)
    ∧ ((processCandle c9wEngine
          ⟨demoConfig, c7Candles, demoPriorState, none, none, 0⟩).2.any
        (isStopUpdateFor "long")) = false :=
  ⟨⟨rfl, by decide⟩,
    (c9_no_stop_update_without_trade c9wEngine
        ⟨demoConfig, c7Candles, demoPriorState, none, none, 0⟩
        ⟨c9wNewState, none⟩ rfl).1 rfl
      (fun sg h => Option.noConfusion h)⟩

/-- Any exit event produced by the long-exit block reports the prior state's
long entry price and risk amount, and the current close as exit price. -/
theorem longExitStep_exit_mem {cfg : Config} {prev new : AlgoState}
    {sig : Option Signal} {cc ch : ℚ} {alt : Option ActiveTrade}
    {pos : String} {ep xp pl ra : ℚ} {r : String}
    (h : TradeEvent.exit pos ep xp pl ra r ∈ (longExitStep cfg prev new sig cc ch alt).1) :
    pos = "long" ∧ ep = prev.longEntryPrice ∧ xp = cc ∧ ra = prev.riskAmount := by
  unfold longExitStep at h
  split at h
  · simp only [List.mem_singleton, TradeEvent.exit.injEq] at h
    exact ⟨h.1, h.2.1, h.2.2.1, h.2.2.2.2.1⟩
  · simp at h

/-- Any exit event produced by the short-exit block reports the prior state's
short entry price and risk amount, and the current close as exit price. -/
theorem shortExitStep_exit_mem {cfg : Config} {prev new : AlgoState}
    {sig : Option Signal} {cc cl : ℚ} {ast : Option ActiveTrade}
    {pos : String} {ep xp pl ra : ℚ} {r : String}
    (h : TradeEvent.exit pos ep xp pl ra r ∈ (shortExitStep cfg prev new sig cc cl ast).1) :
    pos = "short" ∧ ep = prev.shortEntryPrice ∧ xp = cc ∧ ra = prev.riskAmount := by
  unfold shortExitStep at h
  split at h
  · simp only [List.mem_singleton, TradeEvent.exit.injEq] at h
    exact ⟨h.1, h.2.1, h.2.2.1, h.2.2.2.2.1⟩
  · simp at h

/-- The entry block emits no exit events. -/
theorem entryStep_no_exit (new : AlgoState) (sig : Option Signal) (cc : ℚ) (ct : ℤ)
    (alt ast : Option ActiveTrade) (counter : Nat)
    (pos : String) (ep xp pl ra : ℚ) (r : String) :
    TradeEvent.exit pos ep xp pl ra r ∉ (entryStep new sig cc ct alt ast counter).1 := by
  unfold entryStep
  cases sig with
  | none => simp
  | some s =>
      by_cases h1 : s.position = "long"
      · simp [h1]
      · by_cases h2 : s.position = "short"
        · simp [h1, h2]
        · simp [h1, h2]

/-- The long stop-update block emits no exit events. -/
theorem longStopUpdateStep_no_exit (prev new : AlgoState) (alt : Option ActiveTrade)
    (pos : String) (ep xp pl ra : ℚ) (r : String) :
    TradeEvent.exit pos ep xp pl ra r ∉ (longStopUpdateStep prev new alt).1 := by
  unfold longStopUpdateStep
  cases alt with
  | none => simp
  | some trade =>
      by_cases h : prev.longStopReference = new.longStopReference
      · simp [h]
      · simp [h]

/-- The short stop-update block emits no exit events. -/
theorem shortStopUpdateStep_no_exit (prev new : AlgoState) (ast : Option ActiveTrade)
    (pos : String) (ep xp pl ra : ℚ) (r : String) :
    TradeEvent.exit pos ep xp pl ra r ∉ (shortStopUpdateStep prev new ast).1 := by
  unfold shortStopUpdateStep
  cases ast with
  | none => simp
  | some trade =>
      by_cases h : prev.shortStopReference = new.shortStopReference
      · simp [h]
      · simp [h]

/-- Claim C10: every emitted exit event reports the close price of the
current candle as `exitPrice` (never the target or stop level), and takes
`entryPrice` and `riskedAmount` from the prior algorithm state. -/
theorem c10_exit_price_is_close
    (engine : Candles → AlgoState → Config → Except String EngineResult)
    (t : TraderSt) (pos : String) (ep xp pl ra : ℚ) (r : String)
    (hmem : TradeEvent.exit pos ep xp pl ra r ∈ (processCandle engine t).2) :
    xp = t.candles.close.getLastD 0 ∧ ra = t.state.riskAmount
    ∧ ((pos = "long" ∧ ep = t.state.longEntryPrice)
        ∨ (pos = "short" ∧ ep = t.state.shortEntryPrice)) := by
  cases hres : engine t.candles t.state t.config with
  | error msg => simp [processCandle, hres] at hmem
  | ok result =>
      simp only [processCandle, hres, List.mem_append] at hmem
      rcases hmem with ((((h | h) | h) | h) | h)
      · obtain ⟨hpos, hep, hxp, hra⟩ := longExitStep_exit_mem h
        exact ⟨hxp, hra, Or.inl ⟨hpos, hep⟩⟩
      · obtain ⟨hpos, hep, hxp, hra⟩ := shortExitStep_exit_mem h
        exact ⟨hxp, hra, Or.inr ⟨hpos, hep⟩⟩
      · exact absurd h (entryStep_no_exit _ _ _ _ _ _ _ _ _ _ _ _ _)
      · exact absurd h (longStopUpdateStep_no_exit _ _ _ _ _ _ _ _ _)
      · exact absurd h (shortStopUpdateStep_no_exit _ _ _ _ _ _ _ _ _)

/-- Claim C10 witness: in the C6 worked example (target 105 hit at high 106,
close 104) the exit event's exitPrice is the candle close 104 — which differs
from the 105 target level — and entryPrice 100 / riskedAmount 10 come from
the prior state. -/
theorem c10_exit_price_witness :
    (TradeEvent.exit "long" 100 104
        (c6Trader.state.riskAmount * c6Trader.config.rewardMultiple
          * leverageFactor c6Trader.config)
        10 "Target Hit"
      ∈ (processCandle c6Engine c6Trader).2)
    ∧ ((104 : ℚ) = c6Trader.candles.close.getLastD 0
        ∧ (10 : ℚ) = c6Trader.state.riskAmount
        ∧ (("long" = "long" ∧ (100 : ℚ) = c6Trader.state.longEntryPrice)
            ∨ ("long" = "short" ∧ (100 : ℚ) = c6Trader.state.shortEntryPrice)))
    ∧ (104 : ℚ) ≠ c6Trader.state.longTargetLevel :=
  have hmem : TradeEvent.exit "long" 100 104
      (c6Trader.state.riskAmount * c6Trader.config.rewardMultiple
        * leverageFactor c6Trader.config)
      10 "Target Hit"
      ∈ (processCandle c6Engine c6Trader).2 := by
    simp only [processCandle, c6Engine]
    rw [longExitStep_target_hit rfl rfl (by decide)]
    simp [c6Trader, demoPriorState, c6Candles]
  ⟨hmem,
    c10_exit_price_is_close c6Engine c6Trader "long" 100 104
      (c6Trader.state.riskAmount * c6Trader.config.rewardMultiple
        * leverageFactor c6Trader.config)
      10 "Target Hit" hmem,
    by decide⟩
